import Mathlib

/-!
Verification development for the go-confero light-client subsystem.

The definitions below are shallow embeddings of the Go source files of the
repository: the LES client backend (package les: New, Stop, VfluxRequest,
vfxVersion, prenegQuery), the mobile node wrapper (package gcofe: NewNode,
NodeConfig), and the generated Trezor protobuf message getters (package
trezor).  External collaborators that the embedded code calls (discv5 UDP
transport, RLP encoding, the vflux request container, the chain indexer
scheduler, the genesis JSON constants) are modelled as explicit environment
parameters or, where the specification describes their behaviour, as
definitions marked as modelled from the spec.
-/

/- ===================== LES capacity negotiation (package les) ========= -/

/-- An enode record as seen by vfxVersion: its sequence number and the decode
result of its ENR entry named les.  The entry, when present and loadable, is a
list of raw RLP fields; each field is recorded as some v when it decodes as an
unsigned integer v and none when it does not.  lesEntry is none when the entry
is absent or fails to load. -/
structure Node where
  seq : Nat
  lesEntry : Option (List (Option Nat))

/-- Modelled from the spec: a capacity query parameter field of type
vflux.IntOrInf (opaque parameters of the named query); the Go zero value is
tp = 0, value = 0. -/
structure IntOrInf where
  tp : Nat
  value : Int

/-- Modelled from the spec: the vflux capacity query request body
(CapacityQueryReq), carrying a bias and a list of token amounts. -/
structure CapacityQueryReq where
  bias : Nat
  addTokens : List IntOrInf

/-- Modelled from the spec: a named vflux request, a named query plus opaque
parameters (here always a capacity query body, the only request the client
builds). -/
structure VfluxReq where
  service : String
  name : String
  params : CapacityQueryReq

/-- Modelled from the spec: the vflux request batch type (vflux.Requests). -/
abbrev VfluxRequests : Type := List VfluxReq

/-- Modelled from the spec: the decode result of one vflux reply when read as
a capacity query reply (a list of unsigned integers); in Go the type is
vflux.CapacityQueryReply, a slice of uint64. -/
abbrev CapacityQueryReply : Type := List Nat

/-- Modelled from the spec: the vflux reply batch (vflux.Replies), a named
result list; each element is some r when it decodes as a capacity query reply
r and none when decoding fails. -/
abbrev VfluxReplies : Type := List (Option CapacityQueryReply)

/-- Environment of the LightConfero negotiation code: the parts of the node
configuration and of the external collaborators (discv5 UDP transport, RLP
codec, server pool node resolution) that VfluxRequest, vfxVersion and
prenegQuery consult.  requestENR is none when DiscV5.RequestENR returns an
error or a nil node; decodeReplies is none when rlp.DecodeBytes fails on the
reply bytes. -/
structure LesEnv where
  udpEnabled : Bool
  dialNode : Node → Node
  encodeRequests : VfluxRequests → List Nat
  talkRequest : Node → List Nat → List Nat
  decodeReplies : List Nat → Option VfluxReplies
  requestENR : Node → Option Node

/-- Embedding of LightConfero.VfluxRequest: returns nil (none) when UDP is
disabled, when the talk reply is empty, or when the reply bytes fail to
decode; otherwise the decoded replies. -/
def VfluxRequest (env : LesEnv) (n : Node) (reqs : VfluxRequests) :
    Option VfluxReplies :=
  if env.udpEnabled = false then none
  else
    let reqsEnc := env.encodeRequests reqs
    let repliesEnc := env.talkRequest (env.dialNode n) reqsEnc
    if repliesEnc.length = 0 then none
    else
      match env.decodeReplies repliesEnc with
      | none => none
      | some replies => some replies

/-- Embedding of LightConfero.vfxVersion: when the record has sequence number
zero it is fetched over UDP (returning 0 when UDP is disabled, the fetch
fails, or the fetched record still has sequence zero; the Persist side effect
does not affect the result and is dropped); then the les ENR entry is loaded
and its first field decoded as an unsigned integer, additional fields being
ignored; every failure yields 0. -/
def vfxVersion (env : LesEnv) (n : Node) : Nat :=
  let fetched : Option Node :=
    if n.seq = 0 then
      if env.udpEnabled = false then none
      else
        match env.requestENR n with
        | some m => if m.seq ≠ 0 then some m else none
        | none => none
    else some n
  match fetched with
  | none => 0
  | some m =>
    match m.lesEntry with
    | none => 0
    | some les =>
      match les with
      | [] => 0
      | first :: _ =>
        match first with
        | some version => version
        | none => 0

/-- Modelled from the spec: vflux Replies.Get (not under src/): reading entry
i of the reply list errors when the reply batch is nil or i is out of range,
and otherwise RLP decodes entry i; the source notes that Get returns an error
if replies is nil. -/
def repliesGet (replies : Option VfluxReplies) (i : Nat) :
    Option CapacityQueryReply :=
  match replies with
  | none => none
  | some rs =>
    match rs.get? i with
    | none => none
    | some r => r

/-- Modelled from the spec: the name of the capacity query
(vflux.CapacityQueryName, not under src/). -/
def capacityQueryName : String := "cq"

/-- The request batch that prenegQuery builds: one les capacity query with
bias 180 and one zero token amount. -/
def capacityQueryRequests : VfluxRequests :=
  [{ service := "les", name := capacityQueryName,
     params := { bias := 180, addTokens := [{ tp := 0, value := 0 }] } }]

/-- Embedding of LightConfero.prenegQuery: returns 1 when the advertised
vflux version is below 1, -1 when the capacity query reply is missing,
undecodable or not exactly one value, 1 when the single value is positive and
0 when it is zero. -/
def prenegQuery (env : LesEnv) (n : Node) : Int :=
  if vfxVersion env n < 1 then 1
  else
    let replies := VfluxRequest env n capacityQueryRequests
    match repliesGet replies 0 with
    | none => -1
    | some cqr =>
      match cqr with
      | [v] => if v > 0 then 1 else 0
      | _ => -1

/- ===================== New and Stop lifecycle traces ================== -/

/-- The construction and registration steps of les.New, in source order. -/
inductive NewEvent where
  | openChainDb
  | openLesDb
  | setupGenesis
  | newServerPool
  | newRetrieveManager
  | newLesOdr
  | newChtIndexer
  | newBloomTrieIndexer
  | setIndexers
  | newLightChain
  | newTxPool
  | setupOracle
  | addChildIndexer
  | chtIndexerStart
  | bloomIndexerStart
  | newPruner
  | setHead
  | newClientHandler
  | registerAPIs
  | registerProtocols
  | registerLifecycle
  | markStartup
deriving DecidableEq, Repr

/-- Outcome of SetupGenesisBlockWithOverride as New classifies it: no error,
a ConfigCompatError (tolerated, triggers the later SetHead rewind), or any
other error (fatal, New returns). -/
inductive GenesisOutcome where
  | ok
  | compat
  | fatal
deriving DecidableEq, Repr

/-- The fallible steps of les.New: whether each of the two database opens,
the genesis setup and NewLightChain fails. -/
structure NewEnv where
  chainDbErr : Bool
  lesDbErr : Bool
  genesisOutcome : GenesisOutcome
  lightChainErr : Bool
deriving DecidableEq, Repr

/-- Embedding of les.New as the ordered trace of steps it executes together
with whether it returns successfully; each early return in the source cuts
the trace at the failing step. -/
def newRun (env : NewEnv) : List NewEvent × Bool :=
  let t := [NewEvent.openChainDb]
  if env.chainDbErr then (t, false) else
  let t := t ++ [NewEvent.openLesDb]
  if env.lesDbErr then (t, false) else
  let t := t ++ [NewEvent.setupGenesis]
  if env.genesisOutcome = GenesisOutcome.fatal then (t, false) else
  let t := t ++ [NewEvent.newServerPool, NewEvent.newRetrieveManager,
    NewEvent.newLesOdr, NewEvent.newChtIndexer, NewEvent.newBloomTrieIndexer,
    NewEvent.setIndexers, NewEvent.newLightChain]
  if env.lightChainErr then (t, false) else
  let t := t ++ [NewEvent.newTxPool, NewEvent.setupOracle,
    NewEvent.addChildIndexer, NewEvent.chtIndexerStart,
    NewEvent.bloomIndexerStart, NewEvent.newPruner]
  let t := if env.genesisOutcome = GenesisOutcome.compat
    then t ++ [NewEvent.setHead] else t
  let t := t ++ [NewEvent.newClientHandler, NewEvent.registerAPIs,
    NewEvent.registerProtocols, NewEvent.registerLifecycle,
    NewEvent.markStartup]
  (t, true)

/-- The shutdown steps of LightConfero.Stop, in source order. -/
inductive StopEvent where
  | closeCloseCh
  | serverPoolStop
  | peersClose
  | reqDistClose
  | odrStop
  | relayStop
  | bloomIndexerClose
  | chtIndexerClose
  | blockchainStop
  | handlerStop
  | txPoolStop
  | engineClose
  | prunerClose
  | eventMuxStop
  | shutdownTrackerStop
  | chainDbClose
  | lesDbClose
  | wgWait
deriving DecidableEq, Repr

/-- Embedding of LightConfero.Stop: the exact sequence of shutdown calls it
makes (the body is straight line code with no branches). -/
def stopTrace : List StopEvent :=
  [StopEvent.closeCloseCh, StopEvent.serverPoolStop, StopEvent.peersClose,
   StopEvent.reqDistClose, StopEvent.odrStop, StopEvent.relayStop,
   StopEvent.bloomIndexerClose, StopEvent.chtIndexerClose,
   StopEvent.blockchainStop, StopEvent.handlerStop, StopEvent.txPoolStop,
   StopEvent.engineClose, StopEvent.prunerClose, StopEvent.eventMuxStop,
   StopEvent.shutdownTrackerStop, StopEvent.chainDbClose,
   StopEvent.lesDbClose, StopEvent.wgWait]

/- ===================== Parent and child chain indexers ================ -/

/-- Modelled from the spec: the joint state of an upstream chain indexer
(bloom bits) and a downstream child indexer (Bloom-Trie) registered through
AddChildIndexer, whose scheduler is not under src/.  head counts the
confirmed headers available, parentSections and childSections count the
sections the upstream has committed and the downstream has begun. -/
structure IndexerPair where
  head : Nat
  parentSections : Nat
  childSections : Nat
deriving DecidableEq, Repr

/-- Modelled from the spec: the steps of the indexer scheduler (not under
src/): a new confirmed header arrives, the upstream commits its next section
once a full section of headers is available, and the downstream begins its
next section only after the upstream has committed that same section. -/
inductive IndexerStep (size : Nat) : IndexerPair → IndexerPair → Prop where
  | newHead (s : IndexerPair) :
      IndexerStep size s { s with head := s.head + 1 }
  | parentCommit (s : IndexerPair)
      (h : (s.parentSections + 1) * size ≤ s.head) :
      IndexerStep size s { s with parentSections := s.parentSections + 1 }
  | childBegin (s : IndexerPair) (h : s.childSections < s.parentSections) :
      IndexerStep size s { s with childSections := s.childSections + 1 }

/-- Modelled from the spec: the empty initial indexer state. -/
def indexerInit : IndexerPair :=
  { head := 0, parentSections := 0, childSections := 0 }

/-- Modelled from the spec: the states the indexer pair can reach from the
empty initial state. -/
def IndexerReachable (size : Nat) (s : IndexerPair) : Prop :=
  Relation.ReflTransGen (IndexerStep size) indexerInit s

/- ===================== Mobile node wrapper (package gcofe) ============ -/

/-- Embedding of gcofe.NodeConfig: the configuration values NewNode reads or
rewrites (bootstrap node records are modelled by their string form). -/
structure NodeConfig where
  bootstrapNodes : List String
  maxPeers : Int
  conferoEnabled : Bool
  conferoNetworkID : Int
  conferoGenesis : String
  conferoDatabaseCache : Int
  conferoNetStats : String
  pprofAddress : String
deriving DecidableEq, Repr

/-- The four testnet genesis JSON constants and the foundation bootnode list
that NewNode compares against and falls back to.  Modelled from the spec:
RopstenGenesis, SepoliaGenesis, RinkebyGenesis, GoerliGenesis and
FoundationBootnodes are package gcofe code not under src/, so the strings
are carried as parameters. -/
structure GenesisSpecs where
  ropsten : String
  sepolia : String
  rinkeby : String
  goerli : String
  foundationBootnodes : List String

/-- Embedding of gcofe.defaultNodeConfig: the default configuration values
used when all or some fields are missing. -/
def defaultNodeConfig (g : GenesisSpecs) : NodeConfig :=
  { bootstrapNodes := g.foundationBootnodes
    maxPeers := 25
    conferoEnabled := true
    conferoNetworkID := 1
    conferoGenesis := ""
    conferoDatabaseCache := 16
    conferoNetStats := ""
    pprofAddress := "" }

/-- Embedding of the testnet network identifier overrides in gcofe.NewNode:
inside the non-empty-genesis branch, each testnet comparison in source order
replaces a network identifier equal to 1 with the canonical testnet
identifier (the accompanying genesis.Config assignments touch only the local
genesis object, not the configuration, and are outside this model). -/
def testnetNetworkID (g : GenesisSpecs) (genesis : String) (netId : Int) :
    Int :=
  let netId := if genesis = g.ropsten then
    (if netId = 1 then 3 else netId) else netId
  let netId := if genesis = g.sepolia then
    (if netId = 1 then 11155111 else netId) else netId
  let netId := if genesis = g.rinkeby then
    (if netId = 1 then 4 else netId) else netId
  let netId := if genesis = g.goerli then
    (if netId = 1 then 5 else netId) else netId
  netId

/-- Embedding of the configuration normalisation performed by gcofe.NewNode
before it builds the p2p configuration and the les backend: a nil
configuration becomes the default, a zero MaxPeers becomes the default
MaxPeers, a nil or empty bootstrap list becomes the foundation bootnodes,
and a non-empty genesis triggers the testnet network identifier overrides. -/
def newNodeConfig (g : GenesisSpecs) (config : Option NodeConfig) :
    NodeConfig :=
  let config := match config with
    | none => defaultNodeConfig g
    | some c => c
  let config := if config.maxPeers = 0 then
    { config with maxPeers := (defaultNodeConfig g).maxPeers } else config
  let config := if config.bootstrapNodes.length = 0 then
    { config with bootstrapNodes := g.foundationBootnodes } else config
  if config.conferoGenesis ≠ "" then
    { config with conferoNetworkID :=
        testnetNetworkID g config.conferoGenesis config.conferoNetworkID }
  else config

/-- The MaxPeers value NewNode writes into the p2p configuration of the
networking stack it creates. -/
def newNodeP2PMaxPeers (g : GenesisSpecs) (config : Option NodeConfig) :
    Int :=
  (newNodeConfig g config).maxPeers

/- ===================== Trezor protobuf messages (package trezor) ====== -/

/-- Placeholder for the HDNodeType message defined in the common Trezor
message file (external to this source file); the getters here only pass its
pointer through, so its fields are irrelevant. -/
structure HDNodeType where
  unit : Unit

/-- Embedding of trezor.ConferoGetPublicKey: pointer-typed optional fields
become Option, slice fields become lists (a nil Go slice is the empty
list). -/
structure ConferoGetPublicKey where
  addressN : List Nat
  showDisplay : Option Bool

/-- The zero value of ConferoGetPublicKey: every field unset. -/
def ConferoGetPublicKey.empty : ConferoGetPublicKey :=
  { addressN := [], showDisplay := none }

/-- Embedding of the generated getter GetAddressN; the receiver is a Go
pointer, none being nil. -/
def ConferoGetPublicKey.GetAddressN : Option ConferoGetPublicKey → List Nat
  | some m => m.addressN
  | none => []

/-- Embedding of the generated getter GetShowDisplay. -/
def ConferoGetPublicKey.GetShowDisplay : Option ConferoGetPublicKey → Bool
  | some m =>
    match m.showDisplay with
    | some b => b
    | none => false
  | none => false

/-- Embedding of trezor.ConferoPublicKey. -/
structure ConferoPublicKey where
  node : Option HDNodeType
  xpub : Option String

/-- The zero value of ConferoPublicKey. -/
def ConferoPublicKey.empty : ConferoPublicKey :=
  { node := none, xpub := none }

/-- Embedding of the generated getter GetNode (returns the possibly nil
pointer field itself). -/
def ConferoPublicKey.GetNode : Option ConferoPublicKey → Option HDNodeType
  | some m => m.node
  | none => none

/-- Embedding of the generated getter GetXpub. -/
def ConferoPublicKey.GetXpub : Option ConferoPublicKey → String
  | some m =>
    match m.xpub with
    | some s => s
    | none => ""
  | none => ""

/-- Embedding of trezor.ConferoGetAddress. -/
structure ConferoGetAddress where
  addressN : List Nat
  showDisplay : Option Bool

/-- The zero value of ConferoGetAddress. -/
def ConferoGetAddress.empty : ConferoGetAddress :=
  { addressN := [], showDisplay := none }

/-- Embedding of the generated getter GetAddressN. -/
def ConferoGetAddress.GetAddressN : Option ConferoGetAddress → List Nat
  | some m => m.addressN
  | none => []

/-- Embedding of the generated getter GetShowDisplay. -/
def ConferoGetAddress.GetShowDisplay : Option ConferoGetAddress → Bool
  | some m =>
    match m.showDisplay with
    | some b => b
    | none => false
  | none => false

/-- Embedding of trezor.ConferoAddress. -/
structure ConferoAddress where
  addressBin : List Nat
  addressHex : Option String

/-- The zero value of ConferoAddress. -/
def ConferoAddress.empty : ConferoAddress :=
  { addressBin := [], addressHex := none }

/-- Embedding of the generated getter GetAddressBin. -/
def ConferoAddress.GetAddressBin : Option ConferoAddress → List Nat
  | some m => m.addressBin
  | none => []

/-- Embedding of the generated getter GetAddressHex. -/
def ConferoAddress.GetAddressHex : Option ConferoAddress → String
  | some m =>
    match m.addressHex with
    | some s => s
    | none => ""
  | none => ""

/-- Embedding of trezor.ConferoSignTx: byte-slice fields are lists of bytes,
pointer fields are options. -/
structure ConferoSignTx where
  addressN : List Nat
  nonce : List Nat
  gasPrice : List Nat
  gasLimit : List Nat
  toBin : List Nat
  toHex : Option String
  value : List Nat
  dataInitialChunk : List Nat
  dataLength : Option Nat
  chainId : Option Nat
  txType : Option Nat

/-- The zero value of ConferoSignTx: every field unset. -/
def ConferoSignTx.empty : ConferoSignTx :=
  { addressN := [], nonce := [], gasPrice := [], gasLimit := [], toBin := [],
    toHex := none, value := [], dataInitialChunk := [], dataLength := none,
    chainId := none, txType := none }

/-- Embedding of the generated getter GetAddressN. -/
def ConferoSignTx.GetAddressN : Option ConferoSignTx → List Nat
  | some m => m.addressN
  | none => []

/-- Embedding of the generated getter GetNonce. -/
def ConferoSignTx.GetNonce : Option ConferoSignTx → List Nat
  | some m => m.nonce
  | none => []

/-- Embedding of the generated getter GetGasPrice. -/
def ConferoSignTx.GetGasPrice : Option ConferoSignTx → List Nat
  | some m => m.gasPrice
  | none => []

/-- Embedding of the generated getter GetGasLimit. -/
def ConferoSignTx.GetGasLimit : Option ConferoSignTx → List Nat
  | some m => m.gasLimit
  | none => []

/-- Embedding of the generated getter GetToBin. -/
def ConferoSignTx.GetToBin : Option ConferoSignTx → List Nat
  | some m => m.toBin
  | none => []

/-- Embedding of the generated getter GetToHex. -/
def ConferoSignTx.GetToHex : Option ConferoSignTx → String
  | some m =>
    match m.toHex with
    | some s => s
    | none => ""
  | none => ""

/-- Embedding of the generated getter GetValue. -/
def ConferoSignTx.GetValue : Option ConferoSignTx → List Nat
  | some m => m.value
  | none => []

/-- Embedding of the generated getter GetDataInitialChunk. -/
def ConferoSignTx.GetDataInitialChunk : Option ConferoSignTx → List Nat
  | some m => m.dataInitialChunk
  | none => []

/-- Embedding of the generated getter GetDataLength. -/
def ConferoSignTx.GetDataLength : Option ConferoSignTx → Nat
  | some m =>
    match m.dataLength with
    | some v => v
    | none => 0
  | none => 0

/-- Embedding of the generated getter GetChainId. -/
def ConferoSignTx.GetChainId : Option ConferoSignTx → Nat
  | some m =>
    match m.chainId with
    | some v => v
    | none => 0
  | none => 0

/-- Embedding of the generated getter GetTxType. -/
def ConferoSignTx.GetTxType : Option ConferoSignTx → Nat
  | some m =>
    match m.txType with
    | some v => v
    | none => 0
  | none => 0

/-- Embedding of trezor.ConferoTxRequest. -/
structure ConferoTxRequest where
  dataLength : Option Nat
  signatureV : Option Nat
  signatureR : List Nat
  signatureS : List Nat

/-- The zero value of ConferoTxRequest. -/
def ConferoTxRequest.empty : ConferoTxRequest :=
  { dataLength := none, signatureV := none, signatureR := [],
    signatureS := [] }

/-- Embedding of the generated getter GetDataLength. -/
def ConferoTxRequest.GetDataLength : Option ConferoTxRequest → Nat
  | some m =>
    match m.dataLength with
    | some v => v
    | none => 0
  | none => 0

/-- Embedding of the generated getter GetSignatureV. -/
def ConferoTxRequest.GetSignatureV : Option ConferoTxRequest → Nat
  | some m =>
    match m.signatureV with
    | some v => v
    | none => 0
  | none => 0

/-- Embedding of the generated getter GetSignatureR. -/
def ConferoTxRequest.GetSignatureR : Option ConferoTxRequest → List Nat
  | some m => m.signatureR
  | none => []

/-- Embedding of the generated getter GetSignatureS. -/
def ConferoTxRequest.GetSignatureS : Option ConferoTxRequest → List Nat
  | some m => m.signatureS
  | none => []

/-- Embedding of trezor.ConferoTxAck. -/
structure ConferoTxAck where
  dataChunk : List Nat

/-- The zero value of ConferoTxAck. -/
def ConferoTxAck.empty : ConferoTxAck :=
  { dataChunk := [] }

/-- Embedding of the generated getter GetDataChunk. -/
def ConferoTxAck.GetDataChunk : Option ConferoTxAck → List Nat
  | some m => m.dataChunk
  | none => []

/-- Embedding of trezor.ConferoSignMessage. -/
structure ConferoSignMessage where
  addressN : List Nat
  message : List Nat

/-- The zero value of ConferoSignMessage. -/
def ConferoSignMessage.empty : ConferoSignMessage :=
  { addressN := [], message := [] }

/-- Embedding of the generated getter GetAddressN. -/
def ConferoSignMessage.GetAddressN : Option ConferoSignMessage → List Nat
  | some m => m.addressN
  | none => []

/-- Embedding of the generated getter GetMessage. -/
def ConferoSignMessage.GetMessage : Option ConferoSignMessage → List Nat
  | some m => m.message
  | none => []

/-- Embedding of trezor.ConferoMessageSignature. -/
structure ConferoMessageSignature where
  addressBin : List Nat
  signature : List Nat
  addressHex : Option String

/-- The zero value of ConferoMessageSignature. -/
def ConferoMessageSignature.empty : ConferoMessageSignature :=
  { addressBin := [], signature := [], addressHex := none }

/-- Embedding of the generated getter GetAddressBin. -/
def ConferoMessageSignature.GetAddressBin :
    Option ConferoMessageSignature → List Nat
  | some m => m.addressBin
  | none => []

/-- Embedding of the generated getter GetSignature. -/
def ConferoMessageSignature.GetSignature :
    Option ConferoMessageSignature → List Nat
  | some m => m.signature
  | none => []

/-- Embedding of the generated getter GetAddressHex. -/
def ConferoMessageSignature.GetAddressHex :
    Option ConferoMessageSignature → String
  | some m =>
    match m.addressHex with
    | some s => s
    | none => ""
  | none => ""

/-- Embedding of trezor.ConferoVerifyMessage. -/
structure ConferoVerifyMessage where
  addressBin : List Nat
  signature : List Nat
  message : List Nat
  addressHex : Option String

/-- The zero value of ConferoVerifyMessage. -/
def ConferoVerifyMessage.empty : ConferoVerifyMessage :=
  { addressBin := [], signature := [], message := [], addressHex := none }

/-- Embedding of the generated getter GetAddressBin. -/
def ConferoVerifyMessage.GetAddressBin :
    Option ConferoVerifyMessage → List Nat
  | some m => m.addressBin
  | none => []

/-- Embedding of the generated getter GetSignature. -/
def ConferoVerifyMessage.GetSignature :
    Option ConferoVerifyMessage → List Nat
  | some m => m.signature
  | none => []

/-- Embedding of the generated getter GetMessage. -/
def ConferoVerifyMessage.GetMessage : Option ConferoVerifyMessage → List Nat
  | some m => m.message
  | none => []

/-- Embedding of the generated getter GetAddressHex. -/
def ConferoVerifyMessage.GetAddressHex :
    Option ConferoVerifyMessage → String
  | some m =>
    match m.addressHex with
    | some s => s
    | none => ""
  | none => ""

/- ===================== Concrete sample inputs ========================= -/

/-- A negotiation environment whose UDP transport answers with bytes that do
not decode as a reply batch, so every query goes unanswered. -/
def lesEnvNoReply : LesEnv :=
  { udpEnabled := true
    dialNode := fun n => n
    encodeRequests := fun _ => []
    talkRequest := fun _ _ => [1]
    decodeReplies := fun _ => none
    requestENR := fun _ => none }

/-- A negotiation environment whose transport answers the capacity query
with the single value 5 (capacity available). -/
def lesEnvAvailable : LesEnv :=
  { udpEnabled := true
    dialNode := fun n => n
    encodeRequests := fun _ => []
    talkRequest := fun _ _ => [1]
    decodeReplies := fun _ => some [some [5]]
    requestENR := fun _ => none }

/-- A negotiation environment whose transport answers the capacity query
with the single value 0 (busy). -/
def lesEnvBusy : LesEnv :=
  { udpEnabled := true
    dialNode := fun n => n
    encodeRequests := fun _ => []
    talkRequest := fun _ _ => [1]
    decodeReplies := fun _ => some [some [0]]
    requestENR := fun _ => none }

/-- A negotiation environment with UDP discovery disabled. -/
def lesEnvUdpOff : LesEnv :=
  { udpEnabled := false
    dialNode := fun n => n
    encodeRequests := fun _ => []
    talkRequest := fun _ _ => [1]
    decodeReplies := fun _ => some [some [5]]
    requestENR := fun _ => none }

/-- A node record with sequence number 1 advertising les version 1. -/
def nodeVersionOne : Node := { seq := 1, lesEntry := some [some 1] }

/-- A node record with sequence number 1 advertising les version 2. -/
def nodeVersionTwo : Node := { seq := 1, lesEntry := some [some 2] }

/-- A node record whose les entry is present and non-empty but whose first
field does not decode as an unsigned integer. -/
def nodeUndecodableEntry : Node := { seq := 1, lesEntry := some [none] }

/-- A node record advertising les version 7 followed by two additional
unknown fields. -/
def nodeExtraFields : Node :=
  { seq := 1, lesEntry := some [some 7, none, some 3] }

/-- A node record with sequence number 0 and no record contents. -/
def nodeSeqZero : Node := { seq := 0, lesEntry := none }

/-- Concrete distinct, non-empty stand-ins for the four testnet genesis JSON
constants plus a bootnode list. -/
def testGenesisSpecs : GenesisSpecs :=
  { ropsten := "ropsten genesis json"
    sepolia := "sepolia genesis json"
    rinkeby := "rinkeby genesis json"
    goerli := "goerli genesis json"
    foundationBootnodes := ["enode-a"] }

/-- A configuration with MaxPeers set to zero. -/
def zeroPeerConfig : NodeConfig :=
  { bootstrapNodes := ["enode-a"]
    maxPeers := 0
    conferoEnabled := true
    conferoNetworkID := 1
    conferoGenesis := ""
    conferoDatabaseCache := 16
    conferoNetStats := ""
    pprofAddress := "" }

/-- A configuration carrying the Sepolia genesis spec and the mainnet
network identifier 1. -/
def sepoliaConfig : NodeConfig :=
  { bootstrapNodes := ["enode-a"]
    maxPeers := 25
    conferoEnabled := true
    conferoNetworkID := 1
    conferoGenesis := "sepolia genesis json"
    conferoDatabaseCache := 16
    conferoNetStats := ""
    pprofAddress := "" }

/-- The fully successful environment for les.New: no step fails. -/
def newEnvOk : NewEnv :=
  { chainDbErr := false, lesDbErr := false,
    genesisOutcome := GenesisOutcome.ok, lightChainErr := false }

/- ===================== Helper lemmas ================================== -/

/-- The MaxPeers value surviving NewNode configuration normalisation: the
default 25 for a nil configuration or a zero MaxPeers, the caller value
otherwise. -/
theorem newNodeConfig_maxPeers (g : GenesisSpecs) (c : Option NodeConfig) :
    (newNodeConfig g c).maxPeers =
      match c with
      | none => (25 : Int)
      | some cfg => if cfg.maxPeers = 0 then 25 else cfg.maxPeers := by
  rcases c with _ | cfg <;>
    · simp only [newNodeConfig, defaultNodeConfig]
      split_ifs <;> rfl

/-- The network identifier surviving NewNode configuration normalisation:
the testnet override applies exactly when the genesis string is
non-empty. -/
theorem newNodeConfig_networkID (g : GenesisSpecs) (c : NodeConfig) :
    (newNodeConfig g (some c)).conferoNetworkID =
      (if c.conferoGenesis ≠ "" then
        testnetNetworkID g c.conferoGenesis c.conferoNetworkID
      else c.conferoNetworkID) := by
  simp only [newNodeConfig]
  split_ifs <;> rfl

/- ===================== Claim theorems ================================= -/

/-- C1 (counterexample): a candidate node advertising vflux version 1 whose
capacity query receives no decodable reply makes prenegQuery return -1, a
distinct error value, not the Unsupported result 1 that the claim
states. -/
theorem prenegQuery_missing_reply_counterexample :
    VfluxRequest lesEnvNoReply nodeVersionOne capacityQueryRequests = none ∧
    prenegQuery lesEnvNoReply nodeVersionOne = -1 ∧
    prenegQuery lesEnvNoReply nodeVersionOne ≠ 1 := by
  refine ⟨rfl, rfl, by decide⟩

/-- C1 (amended): for every candidate node that supports negotiation
(advertised vflux version at least 1) whose capacity query yields no
decodable reply, prenegQuery reports -1, a value distinct from the
Unsupported result 1 used for candidates that do not implement
negotiation. -/
theorem prenegQuery_missing_reply (env : LesEnv) (n : Node)
    (hv : ¬ vfxVersion env n < 1)
    (hr : VfluxRequest env n capacityQueryRequests = none) :
    prenegQuery env n = -1 := by
  simp only [prenegQuery, if_neg hv, hr]
  rfl

/-- C1 (witness): the amended statement evaluated on the concrete
no-decodable-reply environment. -/
theorem prenegQuery_missing_reply_witness :
    prenegQuery lesEnvNoReply nodeVersionOne = -1 :=
  prenegQuery_missing_reply lesEnvNoReply nodeVersionOne (by decide)
    (by decide)

/-- C2: prenegQuery returns 1 whenever the advertised vflux version is
below 1 (negotiation unsupported, fall back to a direct connection); when
negotiation is supported and the capacity query reply decodes to exactly one
value, it returns 0 exactly when that value is 0 (busy) and 1 exactly when
that value is positive (available). -/
theorem prenegQuery_outcomes (env : LesEnv) (n : Node) :
    (vfxVersion env n < 1 → prenegQuery env n = 1) ∧
    (∀ v : Nat, 1 ≤ vfxVersion env n →
      repliesGet (VfluxRequest env n capacityQueryRequests) 0 = some [v] →
      ((prenegQuery env n = 0 ↔ v = 0) ∧
       (prenegQuery env n = 1 ↔ 0 < v))) := by
  constructor
  · intro h
    simp [prenegQuery, h]
  · intro v hv hr
    have hlt : ¬ vfxVersion env n < 1 := by omega
    simp only [prenegQuery, if_neg hlt, hr]
    rcases Nat.eq_zero_or_pos v with h0 | hp
    · subst h0
      simp
    · have hp' : v > 0 := hp
      constructor
      · simp [if_pos hp']
        omega
      · simp [if_pos hp']
        omega

/-- C2 (witness): the outcome characterisation evaluated on concrete
environments answering the capacity query with 5 and with 0. -/
theorem prenegQuery_outcomes_witness :
    prenegQuery lesEnvAvailable nodeVersionTwo = 1 ∧
    prenegQuery lesEnvBusy nodeVersionTwo = 0 :=
  ⟨((prenegQuery_outcomes lesEnvAvailable nodeVersionTwo).2 5 (by decide)
      (by decide)).2.mpr (by decide),
   ((prenegQuery_outcomes lesEnvBusy nodeVersionTwo).2 0 (by decide)
      (by decide)).1.mpr rfl⟩

/-- C3: Stop shuts the subsystems down in order: the server pool stops
first, then the peer set and the request distributor close, then the ODR
layer stops before the bloom and CHT indexers close, and the two databases
close after every subsystem shutdown step (the trailing wait for the worker
goroutines signalled at the start of Stop is not a subsystem shutdown). -/
theorem stop_ordering :
    stopTrace.indexOf StopEvent.serverPoolStop <
      stopTrace.indexOf StopEvent.peersClose ∧
    stopTrace.indexOf StopEvent.peersClose <
      stopTrace.indexOf StopEvent.reqDistClose ∧
    stopTrace.indexOf StopEvent.reqDistClose <
      stopTrace.indexOf StopEvent.odrStop ∧
    stopTrace.indexOf StopEvent.odrStop <
      stopTrace.indexOf StopEvent.bloomIndexerClose ∧
    stopTrace.indexOf StopEvent.odrStop <
      stopTrace.indexOf StopEvent.chtIndexerClose ∧
    (∀ e ∈ stopTrace, e ≠ StopEvent.chainDbClose →
      e ≠ StopEvent.lesDbClose → e ≠ StopEvent.wgWait →
      stopTrace.indexOf e < stopTrace.indexOf StopEvent.chainDbClose ∧
      stopTrace.indexOf e < stopTrace.indexOf StopEvent.lesDbClose) := by
  decide

/-- C3 (witness): the universally quantified part of the ordering applied
to the shutdown tracker step. -/
theorem stop_ordering_witness :
    stopTrace.indexOf StopEvent.shutdownTrackerStop <
      stopTrace.indexOf StopEvent.chainDbClose :=
  (stop_ordering.2.2.2.2.2 StopEvent.shutdownTrackerStop (by decide)
    (by decide) (by decide) (by decide)).1

/-- C4: every successful run of New performs MarkStartup as its final step
before returning, and Stop clears the clean shutdown marker before closing
chainDb and lesDb. -/
theorem shutdown_marker_lifecycle :
    (∀ env : NewEnv, (newRun env).2 = true →
      (newRun env).1.getLast? = some NewEvent.markStartup) ∧
    stopTrace.indexOf StopEvent.shutdownTrackerStop <
      stopTrace.indexOf StopEvent.chainDbClose ∧
    stopTrace.indexOf StopEvent.shutdownTrackerStop <
      stopTrace.indexOf StopEvent.lesDbClose := by
  refine ⟨?_, by decide, by decide⟩
  rintro ⟨cdb, ldb, go, lce⟩
  cases cdb <;> cases ldb <;> cases go <;> cases lce <;> decide

/-- C4 (witness): the marker property evaluated on the fully successful
construction environment. -/
theorem shutdown_marker_lifecycle_witness :
    (newRun newEnvOk).1.getLast? = some NewEvent.markStartup :=
  shutdown_marker_lifecycle.1 newEnvOk rfl

/-- C5: the negotiation path is total and absorbs every failure:
VfluxRequest returns nil when UDP is disabled, when the talk reply is empty
and when the reply bytes fail to decode, and vfxVersion returns 0 when the
ENR cannot be fetched (UDP disabled, fetch error, or a fetched record still
at sequence zero) and when the record carries no valid les entry. -/
theorem negotiation_total (env : LesEnv) (n : Node) (reqs : VfluxRequests)
    (m : Node) :
    (env.udpEnabled = false → VfluxRequest env n reqs = none) ∧
    ((env.talkRequest (env.dialNode n) (env.encodeRequests reqs)).length = 0 →
      VfluxRequest env n reqs = none) ∧
    (env.decodeReplies (env.talkRequest (env.dialNode n)
        (env.encodeRequests reqs)) = none →
      VfluxRequest env n reqs = none) ∧
    (n.seq = 0 → env.udpEnabled = false → vfxVersion env n = 0) ∧
    (n.seq = 0 → env.requestENR n = none → vfxVersion env n = 0) ∧
    (n.seq = 0 → env.requestENR n = some m → m.seq = 0 →
      vfxVersion env n = 0) ∧
    (n.seq ≠ 0 → n.lesEntry = none → vfxVersion env n = 0) ∧
    (n.seq ≠ 0 → n.lesEntry = some [] → vfxVersion env n = 0) := by
  refine ⟨?_, ?_, ?_, ?_, ?_, ?_, ?_, ?_⟩
  · intro h
    simp [VfluxRequest, h]
  · intro h
    simp [VfluxRequest, h]
  · intro h
    simp [VfluxRequest, h]
  · intro hs h
    simp [vfxVersion, hs, h]
  · intro hs h
    simp [vfxVersion, hs, h]
  · intro hs h hm
    simp [vfxVersion, hs, h, hm]
  · intro hs h
    simp [vfxVersion, hs, h]
  · intro hs h
    simp [vfxVersion, hs, h]

/-- C5 (witness): the absorption cases evaluated on concrete environments
with UDP disabled and with an undecodable reply. -/
theorem negotiation_total_witness :
    VfluxRequest lesEnvUdpOff nodeVersionOne capacityQueryRequests = none ∧
    VfluxRequest lesEnvNoReply nodeVersionOne capacityQueryRequests = none ∧
    vfxVersion lesEnvUdpOff nodeSeqZero = 0 ∧
    vfxVersion lesEnvNoReply nodeSeqZero = 0 :=
  ⟨(negotiation_total lesEnvUdpOff nodeVersionOne capacityQueryRequests
      nodeSeqZero).1 rfl,
   (negotiation_total lesEnvNoReply nodeVersionOne capacityQueryRequests
      nodeSeqZero).2.2.1 rfl,
   (negotiation_total lesEnvUdpOff nodeSeqZero capacityQueryRequests
      nodeSeqZero).2.2.2.1 rfl rfl,
   (negotiation_total lesEnvNoReply nodeSeqZero capacityQueryRequests
      nodeSeqZero).2.2.2.2.1 rfl rfl⟩

/-- C6 (counterexample): a node record whose les entry is present,
loadable and non-empty but whose first field does not decode as an integer
also makes vfxVersion return 0, so 0 is not returned only when the entry is
absent, fails to load, or is empty. -/
theorem vfxVersion_zero_counterexample :
    vfxVersion lesEnvNoReply nodeUndecodableEntry = 0 ∧
    nodeUndecodableEntry.lesEntry ≠ none ∧
    nodeUndecodableEntry.lesEntry ≠ some [] := by
  refine ⟨rfl, by decide, by decide⟩

/-- C6 (amended): for every record held with a non-zero sequence number,
vfxVersion decodes and returns the version from the first field of the les
entry while ignoring any additional fields, and it returns 0 only when the
entry is absent or fails to load, is empty, has a first field that does not
decode as an integer, or advertises version 0 itself. -/
theorem vfxVersion_forward_compat (env : LesEnv) (n : Node)
    (h : n.seq ≠ 0) :
    (∀ v rest, n.lesEntry = some (some v :: rest) → vfxVersion env n = v) ∧
    (vfxVersion env n = 0 →
      n.lesEntry = none ∨ n.lesEntry = some [] ∨
      (∃ rest, n.lesEntry = some (none :: rest)) ∨
      (∃ rest, n.lesEntry = some (some 0 :: rest))) := by
  constructor
  · intro v rest he
    simp [vfxVersion, h, he]
  · intro h0
    rcases hle : n.lesEntry with _ | les
    · exact Or.inl rfl
    · rcases les with _ | ⟨first, rest⟩
      · exact Or.inr (Or.inl rfl)
      · rcases first with _ | v
        · exact Or.inr (Or.inr (Or.inl ⟨rest, rfl⟩))
        · have hv : vfxVersion env n = v := by
            simp [vfxVersion, h, hle]
          have hv0 : v = 0 := by omega
          exact Or.inr (Or.inr (Or.inr ⟨rest, by rw [hv0]⟩))

/-- C6 (witness): the amended statement evaluated on a record advertising
version 7 followed by two additional unknown fields. -/
theorem vfxVersion_forward_compat_witness :
    vfxVersion lesEnvNoReply nodeExtraFields = 7 :=
  (vfxVersion_forward_compat lesEnvNoReply nodeExtraFields (by decide)).1 7
    [none, some 3] rfl

/-- C7: every successful run of New registers the Bloom-Trie indexer as a
child of the bloom bits indexer, and in the modelled indexer scheduler the
downstream indexer has begun a section N only when the upstream indexer has
already committed its section N. -/
theorem bloomTrie_child_dependency :
    (∀ env : NewEnv, (newRun env).2 = true →
      NewEvent.addChildIndexer ∈ (newRun env).1) ∧
    (∀ size : Nat, ∀ s : IndexerPair, IndexerReachable size s →
      ∀ N : Nat, N < s.childSections → N < s.parentSections) := by
  constructor
  · rintro ⟨cdb, ldb, go, lce⟩
    cases cdb <;> cases ldb <;> cases go <;> cases lce <;> decide
  · intro size s hreach
    have key : s.childSections ≤ s.parentSections := by
      induction hreach with
      | refl => exact Nat.le_refl 0
      | tail hab hbc ih =>
        cases hbc with
        | newHead => exact ih
        | parentCommit ht => exact Nat.le_succ_of_le ih
        | childBegin ht => exact ht
    intro N hN
    omega

/-- C7 (witness): the registration conjunct evaluated on the fully
successful construction environment. -/
theorem bloomTrie_child_dependency_witness :
    NewEvent.addChildIndexer ∈ (newRun newEnvOk).1 :=
  bloomTrie_child_dependency.1 newEnvOk rfl

/-- C8: a configuration with MaxPeers zero is silently replaced by the
default of 25 before the p2p configuration is built, and no configuration,
nil included, yields a zero peer limit through NewNode. -/
theorem newNode_maxPeers (g : GenesisSpecs) (config : NodeConfig)
    (h : config.maxPeers = 0) :
    newNodeP2PMaxPeers g (some config) = 25 ∧
    (∀ c : Option NodeConfig, newNodeP2PMaxPeers g c ≠ 0) := by
  constructor
  · rw [newNodeP2PMaxPeers, newNodeConfig_maxPeers]
    simp [h]
  · intro c
    rw [newNodeP2PMaxPeers, newNodeConfig_maxPeers]
    rcases c with _ | cfg
    · decide
    · by_cases h0 : cfg.maxPeers = 0
      · simp [h0]
      · simp only [h0, if_false]
        exact h0

/-- C8 (witness): the replacement evaluated on a concrete zero MaxPeers
configuration. -/
theorem newNode_maxPeers_witness :
    newNodeP2PMaxPeers testGenesisSpecs (some zeroPeerConfig) = 25 :=
  (newNode_maxPeers testGenesisSpecs zeroPeerConfig rfl).1

/-- C9: with the four testnet genesis constants pairwise distinct and
non-empty, a configuration carrying a testnet genesis and network
identifier 1 gets the canonical testnet identifier (3, 11155111, 4, 5), and
any network identifier other than 1 is left unchanged whatever the genesis
string is. -/
theorem newNode_testnet_networkID (g : GenesisSpecs) (config : NodeConfig)
    (hrs : g.ropsten ≠ g.sepolia) (hrk : g.ropsten ≠ g.rinkeby)
    (hrg : g.ropsten ≠ g.goerli) (hsk : g.sepolia ≠ g.rinkeby)
    (hsg : g.sepolia ≠ g.goerli) (hkg : g.rinkeby ≠ g.goerli)
    (hre : g.ropsten ≠ "") (hse : g.sepolia ≠ "") (hke : g.rinkeby ≠ "")
    (hge : g.goerli ≠ "") :
    ((config.conferoGenesis = g.ropsten ∧ config.conferoNetworkID = 1) →
      (newNodeConfig g (some config)).conferoNetworkID = 3) ∧
    ((config.conferoGenesis = g.sepolia ∧ config.conferoNetworkID = 1) →
      (newNodeConfig g (some config)).conferoNetworkID = 11155111) ∧
    ((config.conferoGenesis = g.rinkeby ∧ config.conferoNetworkID = 1) →
      (newNodeConfig g (some config)).conferoNetworkID = 4) ∧
    ((config.conferoGenesis = g.goerli ∧ config.conferoNetworkID = 1) →
      (newNodeConfig g (some config)).conferoNetworkID = 5) ∧
    (config.conferoNetworkID ≠ 1 →
      (newNodeConfig g (some config)).conferoNetworkID =
        config.conferoNetworkID) := by
  refine ⟨?_, ?_, ?_, ?_, ?_⟩
  · rintro ⟨hg, hn⟩
    rw [newNodeConfig_networkID]
    rw [if_pos (by rw [hg]; exact hre)]
    simp [testnetNetworkID, hg, hn, hrs, hrk, hrg]
  · rintro ⟨hg, hn⟩
    rw [newNodeConfig_networkID]
    rw [if_pos (by rw [hg]; exact hse)]
    simp [testnetNetworkID, hg, hn, Ne.symm hrs, hsk, hsg]
  · rintro ⟨hg, hn⟩
    rw [newNodeConfig_networkID]
    rw [if_pos (by rw [hg]; exact hke)]
    simp [testnetNetworkID, hg, hn, Ne.symm hrk, Ne.symm hsk, hkg]
  · rintro ⟨hg, hn⟩
    rw [newNodeConfig_networkID]
    rw [if_pos (by rw [hg]; exact hge)]
    simp [testnetNetworkID, hg, hn, Ne.symm hrg, Ne.symm hsg, Ne.symm hkg]
  · intro hn
    rw [newNodeConfig_networkID]
    split_ifs with hne
    · simp [testnetNetworkID, hn]
    · rfl

/-- C9 (witness): the Sepolia override evaluated on concrete distinct
genesis strings. -/
theorem newNode_testnet_networkID_witness :
    (newNodeConfig testGenesisSpecs (some sepoliaConfig)).conferoNetworkID =
      11155111 :=
  (newNode_testnet_networkID testGenesisSpecs sepoliaConfig (by decide)
    (by decide) (by decide) (by decide) (by decide) (by decide) (by decide)
    (by decide) (by decide) (by decide)).2.1 ⟨rfl, rfl⟩

/-- C10: every generated getter on the Trezor Confero protobuf message
types is total on nil input: on a nil receiver and on a receiver whose
optional fields are all unset, each getter returns the zero value of its
field type (empty list, false, 0, empty string, or nil pointer). -/
theorem trezor_getters_total :
    ConferoGetPublicKey.GetAddressN none = ([] : List Nat) ∧
    ConferoGetPublicKey.GetAddressN (some ConferoGetPublicKey.empty) = ([] : List Nat) ∧
    ConferoGetPublicKey.GetShowDisplay none = false ∧
    ConferoGetPublicKey.GetShowDisplay (some ConferoGetPublicKey.empty) = false ∧
    ConferoPublicKey.GetNode none = (none : Option HDNodeType) ∧
    ConferoPublicKey.GetNode (some ConferoPublicKey.empty) = (none : Option HDNodeType) ∧
    ConferoPublicKey.GetXpub none = "" ∧
    ConferoPublicKey.GetXpub (some ConferoPublicKey.empty) = "" ∧
    ConferoGetAddress.GetAddressN none = ([] : List Nat) ∧
    ConferoGetAddress.GetAddressN (some ConferoGetAddress.empty) = ([] : List Nat) ∧
    ConferoGetAddress.GetShowDisplay none = false ∧
    ConferoGetAddress.GetShowDisplay (some ConferoGetAddress.empty) = false ∧
    ConferoAddress.GetAddressBin none = ([] : List Nat) ∧
    ConferoAddress.GetAddressBin (some ConferoAddress.empty) = ([] : List Nat) ∧
    ConferoAddress.GetAddressHex none = "" ∧
    ConferoAddress.GetAddressHex (some ConferoAddress.empty) = "" ∧
    ConferoSignTx.GetAddressN none = ([] : List Nat) ∧
    ConferoSignTx.GetAddressN (some ConferoSignTx.empty) = ([] : List Nat) ∧
    ConferoSignTx.GetNonce none = ([] : List Nat) ∧
    ConferoSignTx.GetNonce (some ConferoSignTx.empty) = ([] : List Nat) ∧
    ConferoSignTx.GetGasPrice none = ([] : List Nat) ∧
    ConferoSignTx.GetGasPrice (some ConferoSignTx.empty) = ([] : List Nat) ∧
    ConferoSignTx.GetGasLimit none = ([] : List Nat) ∧
    ConferoSignTx.GetGasLimit (some ConferoSignTx.empty) = ([] : List Nat) ∧
    ConferoSignTx.GetToBin none = ([] : List Nat) ∧
    ConferoSignTx.GetToBin (some ConferoSignTx.empty) = ([] : List Nat) ∧
    ConferoSignTx.GetToHex none = "" ∧
    ConferoSignTx.GetToHex (some ConferoSignTx.empty) = "" ∧
    ConferoSignTx.GetValue none = ([] : List Nat) ∧
    ConferoSignTx.GetValue (some ConferoSignTx.empty) = ([] : List Nat) ∧
    ConferoSignTx.GetDataInitialChunk none = ([] : List Nat) ∧
    ConferoSignTx.GetDataInitialChunk (some ConferoSignTx.empty) = ([] : List Nat) ∧
    ConferoSignTx.GetDataLength none = 0 ∧
    ConferoSignTx.GetDataLength (some ConferoSignTx.empty) = 0 ∧
    ConferoSignTx.GetChainId none = 0 ∧
    ConferoSignTx.GetChainId (some ConferoSignTx.empty) = 0 ∧
    ConferoSignTx.GetTxType none = 0 ∧
    ConferoSignTx.GetTxType (some ConferoSignTx.empty) = 0 ∧
    ConferoTxRequest.GetDataLength none = 0 ∧
    ConferoTxRequest.GetDataLength (some ConferoTxRequest.empty) = 0 ∧
    ConferoTxRequest.GetSignatureV none = 0 ∧
    ConferoTxRequest.GetSignatureV (some ConferoTxRequest.empty) = 0 ∧
    ConferoTxRequest.GetSignatureR none = ([] : List Nat) ∧
    ConferoTxRequest.GetSignatureR (some ConferoTxRequest.empty) = ([] : List Nat) ∧
    ConferoTxRequest.GetSignatureS none = ([] : List Nat) ∧
    ConferoTxRequest.GetSignatureS (some ConferoTxRequest.empty) = ([] : List Nat) ∧
    ConferoTxAck.GetDataChunk none = ([] : List Nat) ∧
    ConferoTxAck.GetDataChunk (some ConferoTxAck.empty) = ([] : List Nat) ∧
    ConferoSignMessage.GetAddressN none = ([] : List Nat) ∧
    ConferoSignMessage.GetAddressN (some ConferoSignMessage.empty) = ([] : List Nat) ∧
    ConferoSignMessage.GetMessage none = ([] : List Nat) ∧
    ConferoSignMessage.GetMessage (some ConferoSignMessage.empty) = ([] : List Nat) ∧
    ConferoMessageSignature.GetAddressBin none = ([] : List Nat) ∧
    ConferoMessageSignature.GetAddressBin (some ConferoMessageSignature.empty) = ([] : List Nat) ∧
    ConferoMessageSignature.GetSignature none = ([] : List Nat) ∧
    ConferoMessageSignature.GetSignature (some ConferoMessageSignature.empty) = ([] : List Nat) ∧
    ConferoMessageSignature.GetAddressHex none = "" ∧
    ConferoMessageSignature.GetAddressHex (some ConferoMessageSignature.empty) = "" ∧
    ConferoVerifyMessage.GetAddressBin none = ([] : List Nat) ∧
    ConferoVerifyMessage.GetAddressBin (some ConferoVerifyMessage.empty) = ([] : List Nat) ∧
    ConferoVerifyMessage.GetSignature none = ([] : List Nat) ∧
    ConferoVerifyMessage.GetSignature (some ConferoVerifyMessage.empty) = ([] : List Nat) ∧
    ConferoVerifyMessage.GetMessage none = ([] : List Nat) ∧
    ConferoVerifyMessage.GetMessage (some ConferoVerifyMessage.empty) = ([] : List Nat) ∧
    ConferoVerifyMessage.GetAddressHex none = "" ∧
    ConferoVerifyMessage.GetAddressHex (some ConferoVerifyMessage.empty) = "" :=
  ⟨rfl, rfl, rfl, rfl, rfl, rfl, rfl, rfl, rfl, rfl, rfl, rfl, rfl, rfl, rfl, rfl, rfl, rfl, rfl, rfl, rfl, rfl, rfl, rfl, rfl, rfl, rfl, rfl, rfl, rfl, rfl, rfl, rfl, rfl, rfl, rfl, rfl, rfl, rfl, rfl, rfl, rfl, rfl, rfl, rfl, rfl, rfl, rfl, rfl, rfl, rfl, rfl, rfl, rfl, rfl, rfl, rfl, rfl, rfl, rfl, rfl, rfl, rfl, rfl, rfl, rfl⟩
